import Mathlib

/-!
Verification of the guardrail evaluation engine and the request
orchestration of the ai-proxy gateway.

The definitions below are a shallow embedding of the Go source:

  * `internal/guardrails/guardrails.go` — the rule predicates
    (banned-words, regex, custom) and the composite evaluator;
  * `cmd/server/main.go` — the rule-set builder (`main`) and the
    request handler installed by `setupRouter` on `POST /v1/query`.

Go strings are modelled as Lean `String`; `len(s)` on a Go string is the
UTF-8 byte count, modelled with `String.utf8ByteSize`.  Regular
expressions are abstracted: a compiled pattern is a matching function
`String → Bool`, and compilation (`regexp.Compile`) is a parameter
`compile : String → Option (String → Bool)` where `none` models a
compile error.  Concrete instances only ever use literal patterns, on
which `litCompile` below agrees with the Go regexp package.
-/

namespace AiProxy

/-- Boolean test that the list `l` starts with the list `pat`
(chars compared one by one). -/
def goStartsWith : List Char → List Char → Bool
  | _, [] => true
  | [], _ :: _ => false
  | a :: as, b :: bs => a = b && goStartsWith as bs

/-- Boolean test that `sub` occurs contiguously inside `l`. -/
def goContainsList (l sub : List Char) : Bool :=
  match l with
  | [] => goStartsWith [] sub
  | _ :: cs => goStartsWith l sub || goContainsList cs sub

/-- Model of Go `strings.Contains s sub`: substring occurrence test. -/
def goContains (s sub : String) : Bool :=
  goContainsList s.data sub.data

/-- Model of Go `strings.ToLower` (ASCII case folding; the contents
exercised in this development are ASCII, on which the two agree). -/
def goToLower (s : String) : String :=
  ⟨s.data.map Char.toLower⟩

/-- Model of Go `unicode.IsSpace` restricted to the ASCII/Latin-1
whitespace characters (the only ones reachable by the properties here). -/
def goIsSpace (c : Char) : Bool :=
  c = ' ' || c = '\t' || c = '\n' || c = '\r' ||
  c = (Char.ofNat 11) || c = (Char.ofNat 12) ||
  c = (Char.ofNat 133) || c = (Char.ofNat 160)

/-- Split a character list at every character satisfying `p`, keeping
empty pieces (the pieces between consecutive separators). -/
def splitOnPred (p : Char → Bool) : List Char → List (List Char)
  | [] => [[]]
  | c :: cs =>
    if p c then [] :: splitOnPred p cs
    else
      match splitOnPred p cs with
      | [] => [[c]]
      | t :: ts => (c :: t) :: ts

/-- Model of Go `strings.Fields`: split on whitespace, keep the
non-empty tokens. -/
def goFields (s : String) : List String :=
  ((splitOnPred goIsSpace s.data).map fun l => (⟨l⟩ : String)).filter
    (fun t => t ≠ "")

/-- A custom rule function, as in `guardrails.CustomRuleFunc`:
given content, return (matched, details). -/
def CustomRuleFunc : Type := String → Bool × String

/-- The concrete guardrail kinds of `internal/guardrails/guardrails.go`.
`regexG` stores each compiled pattern (a matching function) paired with
its original text, mirroring the `Patterns`/`Names` fields of
`RegexGuardrail`; `customRule` mirrors the `Rules`/`Names` fields of
`CustomRuleGuardrail`. -/
inductive Guardrail where
  | bannedWords (words : List String)
  | regexG (patterns : List ((String → Bool) × String))
  | customRule (rules : List CustomRuleFunc) (names : List String)

/-- Constructor `NewBannedWordsGuardrail`: lower-cases every configured word at
construction time. -/
def newBannedWordsGuardrail (bannedWords : List String) : Guardrail :=
  .bannedWords (bannedWords.map goToLower)

/-- Method `BannedWordsGuardrail.Check`: lower-case the content, then return
the error for the first stored word contained in it, if any. -/
def bannedCheck (words : List String) (content : String) : Option String :=
  let c := goToLower content
  words.findSome? fun w =>
    if goContains c w then some ("content contains banned word: " ++ w) else none

/-- The compilation loop of `NewRegexGuardrail`: compile the patterns
in order, keeping each compiled matcher with its original text;
the first compile failure fails the whole loop (Go returns the error
immediately). -/
def compileAll (compile : String → Option (String → Bool)) :
    List String → Option (List ((String → Bool) × String))
  | [] => some []
  | p :: ps =>
    match compile p with
    | none => none
    | some m =>
      match compileAll compile ps with
      | none => none
      | some rest => some ((m, p) :: rest)

/-- Constructor `NewRegexGuardrail`: compiles every pattern; any compile failure
makes the whole construction fail. -/
def newRegexGuardrail (compile : String → Option (String → Bool))
    (patterns : List String) : Option Guardrail :=
  (compileAll compile patterns).map .regexG

/-- Method `RegexGuardrail.Check`: return the error for the first pattern that
matches the content, naming the original pattern text. -/
def regexCheck (ps : List ((String → Bool) × String)) (content : String) :
    Option String :=
  ps.findSome? fun mp =>
    if mp.1 content then some ("content matches forbidden pattern: " ++ mp.2)
    else none

/-- Method `CustomRuleGuardrail.Check`: run the rules in order; the first one
that matches produces the blocked error, using the parallel name list
(default label when the name list is too short) and appending the
details when non-empty. -/
def customRuleCheck : List CustomRuleFunc → List String → String → Option String
  | [], _, _ => none
  | r :: rs, ns, content =>
    match r content with
    | (true, details) =>
      let name := ns.headD "custom rule"
      if details ≠ "" then some ("content blocked by " ++ name ++ ": " ++ details)
      else some ("content blocked by " ++ name)
    | (false, _) => customRuleCheck rs ns.tail content

/-- Dispatch of the `Guardrail.Check` interface method. -/
def Guardrail.check : Guardrail → String → Option String
  | .bannedWords ws, c => bannedCheck ws c
  | .regexG ps, c => regexCheck ps c
  | .customRule rs ns, c => customRuleCheck rs ns c

/-- Method `CompositeGuardrail.Check`: apply the component guardrails in
sequence, returning the first error. -/
def compositeCheck (gs : List Guardrail) (content : String) : Option String :=
  gs.findSome? fun g => g.check content

/-- A dynamically typed Go value stored in a `map[string]interface{}`
parameter map.  Floats are modelled by the exact rational they hold
(every relevant float value is a rational). `vNil` is the nil
interface value. -/
inductive GoValue where
  | vInt (n : Int)
  | vInt64 (n : Int)
  | vFloat64 (q : ℚ)
  | vFloat32 (q : ℚ)
  | vString (s : String)
  | vNil
deriving DecidableEq

/-- Go conversion `int(q)` from a float value: truncation toward zero. -/
def goTrunc (q : ℚ) : Int :=
  if 0 ≤ q then ⌊q⌋ else ⌈q⌉

/-- Structure `config.RuleConfig`: one custom rule entry (`ruleType` models the
Go field `Type`).  The parameter map is an association list. -/
structure RuleConfig where
  name : String
  ruleType : String
  parameters : List (String × GoValue)

/-- Go map indexing `Parameters[key]`: the first binding, or the nil
interface value when the key is absent. -/
def lookupParam (params : List (String × GoValue)) (key : String) : GoValue :=
  match params.find? (fun kv => kv.1 = key) with
  | some kv => kv.2
  | none => .vNil

/-- Structure `config.GuardrailsConfig`, the part consumed by the builder. -/
structure GuardrailsConfig where
  bannedWords : List String
  regexPatterns : List String
  customRules : List RuleConfig
  maxPromptLength : Int

/-- The `max_words` type switch in `main`: float64, int, int64 and
float32 are accepted (floats truncated toward zero); anything else,
including an absent parameter (nil), falls to the default branch and
fails. -/
def extractMaxWords : GoValue → Option Int
  | .vFloat64 q => some (goTrunc q)
  | .vInt n => some n
  | .vInt64 n => some n
  | .vFloat32 q => some (goTrunc q)
  | _ => none

/-- The `wordCountRule` closure in `main`: block when the
whitespace-delimited word count exceeds `maxWords`. -/
def wordCountRule (maxWords : Int) : CustomRuleFunc := fun content =>
  let words := goFields content
  if (words.length : Int) > maxWords then
    (true, "text contains " ++ toString words.length ++
      " words, exceeding limit of " ++ toString maxWords)
  else (false, "")

/-- The `patternRule` closure in `main`: `regexp.MatchString` compiles
the pattern at every call; a compile error is logged and treated as a
pass; a match produces a fixed detail string. -/
def patternRule (compile : String → Option (String → Bool))
    (pattern : String) : CustomRuleFunc := fun content =>
  match compile pattern with
  | none => (false, "")
  | some m =>
    if m content then (true, "content matches forbidden pattern")
    else (false, "")

/-- The `lengthCheckRule` closure in `main`: block when the byte length
of the content (Go `len` on a string) exceeds the configured maximum. -/
def lengthCheckRule (maxLen : Int) : CustomRuleFunc := fun content =>
  if (content.utf8ByteSize : Int) > maxLen then
    (true, "prompt exceeds maximum length of " ++ toString maxLen ++ " characters")
  else (false, "")

/-- The `for _, ruleConfig := range cfg.Guardrails.CustomRules` loop in
`main`: each entry builds its own single-rule `CustomRuleGuardrail`;
entries with a bad type, or with a missing/mis-typed parameter,
are skipped (`continue`) without touching the rest. -/
def buildCustomRules (compile : String → Option (String → Bool)) :
    List RuleConfig → List Guardrail
  | [] => []
  | rc :: rest =>
    let tail := buildCustomRules compile rest
    if rc.ruleType = "word_count" then
      match extractMaxWords (lookupParam rc.parameters "max_words") with
      | some maxWords => .customRule [wordCountRule maxWords] [rc.name] :: tail
      | none => tail
    else if rc.ruleType = "contains_pattern" then
      match lookupParam rc.parameters "pattern" with
      | .vString pattern => .customRule [patternRule compile pattern] [rc.name] :: tail
      | _ => tail
    else tail

/-- The guardrail assembly in `main`: banned-words component (when
words are configured), then the regex component (when patterns are
configured and they all compile; a compile error skips the whole
component), then the prompt-length component (when the bound is
positive), then the custom rule components in configuration order. -/
def buildRuleSet (compile : String → Option (String → Bool))
    (cfg : GuardrailsConfig) : List Guardrail :=
  let c1 : List Guardrail :=
    if cfg.bannedWords.isEmpty then []
    else [newBannedWordsGuardrail cfg.bannedWords]
  let c2 : List Guardrail :=
    if cfg.regexPatterns.isEmpty then c1
    else
      match newRegexGuardrail compile cfg.regexPatterns with
      | none => c1
      | some g => c1 ++ [g]
  let c3 : List Guardrail :=
    if 0 < cfg.maxPromptLength then
      c2 ++ [.customRule [lengthCheckRule cfg.maxPromptLength] ["prompt length check"]]
    else c2
  c3 ++ buildCustomRules compile cfg.customRules

/-- The four Prometheus counters of `metrics.Metrics` (token counter
totals an integer amount per request). -/
structure Metrics where
  llmRequestsTotal : Nat
  llmErrorsTotal : Nat
  llmTokensTotal : Int
  guardrailBlocksTotal : Nat
deriving DecidableEq

/-- The client-visible result of one `POST /v1/query` request. -/
inductive QueryResult where
  | badRequest (error : String)
  | serverError (error : String)
  | ok (completion : String)
deriving DecidableEq

/-- Result of one pass through the handler: final counters, how many
upstream calls were made, and the response. -/
structure HandleOutcome where
  metrics : Metrics
  upstreamCalls : Nat
  response : QueryResult
deriving DecidableEq

/-- The `POST /v1/query` handler body from `setupRouter` (after JSON
binding): run the guardrail; on block, bump the block counter and
reject with the reason; otherwise bump the request counter and make
the one upstream call, whose result `llm` is either an error detail or
(completion, tokens); on error bump the error counter and answer with
a fixed message, on success add the tokens and answer the completion. -/
def handleQuery (gs : List Guardrail) (llm : Except String (String × Int))
    (m : Metrics) (prompt : String) : HandleOutcome :=
  match compositeCheck gs prompt with
  | some reason =>
    { metrics := { m with guardrailBlocksTotal := m.guardrailBlocksTotal + 1 }
      upstreamCalls := 0
      response := .badRequest ("Request blocked by guardrail: " ++ reason) }
  | none =>
    let m1 := { m with llmRequestsTotal := m.llmRequestsTotal + 1 }
    match llm with
    | .error _ =>
      { metrics := { m1 with llmErrorsTotal := m1.llmErrorsTotal + 1 }
        upstreamCalls := 1
        response := .serverError "Error communicating with LLM" }
    | .ok (completion, tokens) =>
      { metrics := { m1 with llmTokensTotal := m1.llmTokensTotal + tokens }
        upstreamCalls := 1
        response := .ok completion }

/-- Concrete regexp model used for concrete instances: the pattern
"(" fails to compile (as in Go, where a lone opening parenthesis is a
syntax error); any other pattern used below is a literal with no
metacharacters, which the Go regexp package matches exactly as a
substring test. -/
def litCompile (p : String) : Option (String → Bool) :=
  if p = "(" then none else some (fun c => goContains c p)

/-- An ordered list of named predicates, each wrapped as its own
single-rule `CustomRuleGuardrail` exactly as `main` wraps every custom
rule it builds. -/
def namedPredicates (G : List (String × CustomRuleFunc)) : List Guardrail :=
  G.map fun nr => .customRule [nr.2] [nr.1]

/-- Whether a custom rule entry survives the construction switch in
`main`: a `word_count` entry needs a numeric `max_words` parameter, a
`contains_pattern` entry needs a string `pattern` parameter, and any
other type is skipped. -/
def customConstructible (rc : RuleConfig) : Bool :=
  if rc.ruleType = "word_count" then
    (extractMaxWords (lookupParam rc.parameters "max_words")).isSome
  else if rc.ruleType = "contains_pattern" then
    match lookupParam rc.parameters "pattern" with
    | .vString _ => true
    | _ => false
  else false

/-!  Theorems  -/

/-- Evaluation of a single-rule, single-name custom guardrail. -/
theorem customRuleCheck_single (r : CustomRuleFunc) (nm c : String) :
    customRuleCheck [r] [nm] c =
      if (r c).1 then
        some (if (r c).2 = "" then "content blocked by " ++ nm
              else "content blocked by " ++ nm ++ ": " ++ (r c).2)
      else none := by
  cases hrc : r c with
  | mk b d =>
    cases b
    · simp [customRuleCheck, hrc]
    · by_cases hd : d = "" <;> simp [customRuleCheck, hrc, hd]

/-- A composite of named predicates in which every predicate passes
evaluates to no error. -/
theorem compositeCheck_named_none (c : String) :
    ∀ G : List (String × CustomRuleFunc), (∀ p ∈ G, (p.2 c).1 = false) →
      compositeCheck (namedPredicates G) c = none := by
  intro G
  induction G with
  | nil => intro _; rfl
  | cons p rest ih =>
    intro hall
    have h1 : (p.2 c).1 = false := hall p (by simp)
    have hs : customRuleCheck [p.2] [p.1] c = none := by
      rw [customRuleCheck_single]; simp [h1]
    simp only [namedPredicates, compositeCheck, List.map_cons,
      List.findSome?_cons, Guardrail.check, hs]
    exact ih fun q hq => hall q (List.mem_cons_of_mem _ hq)

/-- A composite of named predicates evaluates, at the first blocking
predicate, to the blocked message built from that predicate and its
name, whatever comes afterwards. -/
theorem compositeCheck_named_block (c nm : String) (r : CustomRuleFunc)
    (hblk : (r c).1 = true) :
    ∀ pre : List (String × CustomRuleFunc), (∀ p ∈ pre, (p.2 c).1 = false) →
      ∀ suf, compositeCheck (namedPredicates (pre ++ (nm, r) :: suf)) c =
        some (if (r c).2 = "" then "content blocked by " ++ nm
              else "content blocked by " ++ nm ++ ": " ++ (r c).2) := by
  intro pre
  induction pre with
  | nil =>
    intro _ suf
    simp [namedPredicates, compositeCheck, List.findSome?_cons,
      Guardrail.check, customRuleCheck_single, hblk]
  | cons p rest ih =>
    intro hall suf
    have h1 : (p.2 c).1 = false := hall p (by simp)
    have hs : customRuleCheck [p.2] [p.1] c = none := by
      rw [customRuleCheck_single]; simp [h1]
    simp only [namedPredicates, compositeCheck, List.cons_append,
      List.map_cons, List.findSome?_cons, Guardrail.check, hs]
    exact ih (fun q hq => hall q (List.mem_cons_of_mem _ hq)) suf

/-- C2: composite evaluation over an ordered list of named predicates
visits them in insertion order; the first predicate that blocks stops
the scan (the outcome does not depend on what follows it) and yields
the blocked reason joining the display name and the detail with a
colon, or just the name when the detail is empty; when no predicate
blocks, or the list is empty, the outcome is a pass. -/
theorem composite_short_circuit_format
    (G : List (String × CustomRuleFunc)) (c : String) :
    ((∀ p ∈ G, (p.2 c).1 = false) → compositeCheck (namedPredicates G) c = none)
    ∧ (∀ pre nm r suf, G = pre ++ (nm, r) :: suf →
        (∀ p ∈ pre, (p.2 c).1 = false) → (r c).1 = true →
        ∀ alt, compositeCheck (namedPredicates (pre ++ (nm, r) :: alt)) c =
          some (if (r c).2 = "" then "content blocked by " ++ nm
                else "content blocked by " ++ nm ++ ": " ++ (r c).2)) := by
  refine ⟨fun h => compositeCheck_named_none c G h, ?_⟩
  intro pre nm r _ _ hpre hblk alt
  exact compositeCheck_named_block c nm r hblk pre hpre alt

/-- Concrete instance of `composite_short_circuit_format`: the second
of three predicates blocks with a detail, the third is never reached;
a list whose only predicate passes evaluates to a pass. -/
theorem composite_short_circuit_format_inst :
    compositeCheck (namedPredicates [("r1", fun _ => (false, "")),
        ("r2", fun _ => (true, "detail")), ("r3", fun _ => (true, "other"))]) "c" =
      some "content blocked by r2: detail"
    ∧ compositeCheck (namedPredicates [("r1", fun _ => (false, ""))]) "c" = none := by
  constructor
  · have h := (composite_short_circuit_format
      [("r1", fun _ => (false, "")), ("r2", fun _ => (true, "detail")),
        ("r3", fun _ => (true, "other"))] "c").2
      [("r1", fun _ => (false, ""))] "r2" (fun _ => (true, "detail"))
      [("r3", fun _ => (true, "other"))] rfl (by simp) rfl
      [("r3", fun _ => (true, "other"))]
    simpa using h
  · exact (composite_short_circuit_format _ "c").1 (by simp)

/-- Decomposition of the assembled rule set into its four ordered
segments. -/
theorem buildRuleSet_decomp (compile : String → Option (String → Bool))
    (cfg : GuardrailsConfig) :
    buildRuleSet compile cfg =
      (if cfg.bannedWords.isEmpty then []
        else [newBannedWordsGuardrail cfg.bannedWords])
      ++ (if cfg.regexPatterns.isEmpty then []
          else (newRegexGuardrail compile cfg.regexPatterns).toList)
      ++ (if 0 < cfg.maxPromptLength then
            [Guardrail.customRule [lengthCheckRule cfg.maxPromptLength]
              ["prompt length check"]]
          else [])
      ++ buildCustomRules compile cfg.customRules := by
  unfold buildRuleSet
  by_cases h1 : cfg.bannedWords.isEmpty <;>
    by_cases h3 : 0 < cfg.maxPromptLength <;>
    by_cases h2 : cfg.regexPatterns.isEmpty
  all_goals
    cases hg : newRegexGuardrail compile cfg.regexPatterns <;>
      simp [h1, h2, h3, hg]

/-- C3: the built rule set is, in order, the banned-words component
(when words are configured), the pattern component (when patterns are
configured, and then only when all of them compile), the prompt-length
component (when the bound is positive) and one component per custom
entry in configuration order; consequently for the configuration with
banned words ["x"] and length bound 1, the content "xx" (which
violates both) is reported blocked by the banned-words rule, not the
length rule. -/
theorem ruleSet_build_order (compile : String → Option (String → Bool))
    (cfg : GuardrailsConfig) :
    buildRuleSet compile cfg =
      (if cfg.bannedWords.isEmpty then []
        else [newBannedWordsGuardrail cfg.bannedWords])
      ++ (if cfg.regexPatterns.isEmpty then []
          else (newRegexGuardrail compile cfg.regexPatterns).toList)
      ++ (if 0 < cfg.maxPromptLength then
            [Guardrail.customRule [lengthCheckRule cfg.maxPromptLength]
              ["prompt length check"]]
          else [])
      ++ buildCustomRules compile cfg.customRules
    ∧ compositeCheck (buildRuleSet litCompile
        { bannedWords := ["x"], regexPatterns := [], customRules := [],
          maxPromptLength := 1 }) "xx" =
      some "content contains banned word: x" := by
  exact ⟨buildRuleSet_decomp compile cfg, by decide⟩

/-- The regex component constructs exactly when every configured
pattern compiles. -/
theorem newRegexGuardrail_isSome (compile : String → Option (String → Bool)) :
    ∀ ps : List String, (newRegexGuardrail compile ps).isSome =
      ps.all fun p => (compile p).isSome := by
  intro ps
  induction ps with
  | nil => rfl
  | cons p rest ih =>
    unfold newRegexGuardrail at ih ⊢
    cases hc : compile p
    · simp [compileAll, hc]
    · cases hr : compileAll compile rest <;>
        simp [compileAll, hc, hr] at ih ⊢ <;> exact ih

/-- The custom components that survive construction are exactly the
constructible entries, counted in configuration order. -/
theorem buildCustomRules_length (compile : String → Option (String → Bool)) :
    ∀ rcs : List RuleConfig, (buildCustomRules compile rcs).length =
      rcs.countP customConstructible := by
  intro rcs
  induction rcs with
  | nil => rfl
  | cons rc rest ih =>
    by_cases h1 : rc.ruleType = "word_count"
    · cases hm : extractMaxWords (lookupParam rc.parameters "max_words") <;>
        simp [buildCustomRules, customConstructible, h1, hm,
          List.countP_cons, ih]
    · by_cases h2 : rc.ruleType = "contains_pattern"
      · cases hp : lookupParam rc.parameters "pattern" <;>
          simp [buildCustomRules, customConstructible, h1, h2, hp,
            List.countP_cons, ih]
      · simp [buildCustomRules, customConstructible, h1, h2,
          List.countP_cons, ih]

/-- C4 counterexample: with configured patterns ["a", "("] the pattern
"a" parses and "(" does not, yet the built rule set is empty — the one
invalid pattern removed the other configured pattern from the set,
against the claim that invalid entries are dropped individually. -/
theorem ruleSet_one_bad_pattern_drops_all :
    (litCompile "a").isSome = true ∧ (litCompile "(").isSome = false ∧
    buildRuleSet litCompile
      { bannedWords := [], regexPatterns := ["a", "("], customRules := [],
        maxPromptLength := 0 } = [] :=
  ⟨rfl, rfl, rfl⟩

/-- C4 amended: building never fails and each invalid custom entry is
dropped individually, so the custom part has exactly the constructible
entries; the pattern component however is all-or-nothing — it is
present exactly when patterns are configured and all of them compile,
so one invalid pattern drops every configured pattern. -/
theorem ruleSet_size_skips_invalid (compile : String → Option (String → Bool))
    (cfg : GuardrailsConfig) :
    (buildCustomRules compile cfg.customRules).length =
      cfg.customRules.countP customConstructible
    ∧ (buildRuleSet compile cfg).length =
      (if cfg.bannedWords.isEmpty then 0 else 1)
      + (if cfg.regexPatterns.isEmpty then 0
          else if cfg.regexPatterns.all (fun p => (compile p).isSome) then 1
          else 0)
      + (if 0 < cfg.maxPromptLength then 1 else 0)
      + cfg.customRules.countP customConstructible := by
  refine ⟨buildCustomRules_length compile _, ?_⟩
  rw [buildRuleSet_decomp]
  have hreg := newRegexGuardrail_isSome compile cfg.regexPatterns
  by_cases h1 : cfg.bannedWords.isEmpty <;>
    by_cases h3 : 0 < cfg.maxPromptLength <;>
    by_cases h2 : cfg.regexPatterns.isEmpty
  all_goals
    cases hg : newRegexGuardrail compile cfg.regexPatterns <;>
      rw [hg] at hreg <;>
      simp [h1, h2, h3, hg, ← hreg, buildCustomRules_length] <;>
      omega

/-- C5 counterexample: a contains_pattern entry whose string-typed
pattern "(" fails to compile is nonetheless constructed into the rule
set (the claim says its construction fails and the rule is skipped),
and the constructed rule never blocks, not even content containing
the character "(". -/
theorem containsPattern_bad_regex_constructed :
    (buildCustomRules litCompile
      [{ name := "r", ruleType := "contains_pattern",
          parameters := [("pattern", .vString "(")] }]).length = 1
    ∧ compositeCheck (buildCustomRules litCompile
      [{ name := "r", ruleType := "contains_pattern",
          parameters := [("pattern", .vString "(")] }]) "(x" = none :=
  ⟨rfl, rfl⟩

/-- C5 amended: a contains_pattern entry fails construction (it is
skipped, the rest of the set still builds) exactly when the pattern
parameter is missing or not string-typed; a string-typed pattern is
accepted at construction even when it does not compile, in which case
the rule never blocks at evaluation; when the pattern compiles, the
rule blocks exactly the contents the compiled expression matches. -/
theorem containsPattern_construction_spec
    (compile : String → Option (String → Bool)) (rc : RuleConfig)
    (rest : List RuleConfig) (htype : rc.ruleType = "contains_pattern") :
    ((∀ s, lookupParam rc.parameters "pattern" ≠ .vString s) →
      buildCustomRules compile (rc :: rest) = buildCustomRules compile rest)
    ∧ (∀ p, lookupParam rc.parameters "pattern" = .vString p →
        buildCustomRules compile (rc :: rest) =
          .customRule [patternRule compile p] [rc.name]
            :: buildCustomRules compile rest)
    ∧ (∀ p c, compile p = none → patternRule compile p c = (false, ""))
    ∧ (∀ p m c, compile p = some m →
        ((patternRule compile p c).1 = true ↔ m c = true)) := by
  refine ⟨?_, ?_, ?_, ?_⟩
  · intro hs
    cases hp : lookupParam rc.parameters "pattern"
    case vString s => exact absurd hp (hs s)
    all_goals simp [buildCustomRules, htype, hp]
  · intro p hp
    simp [buildCustomRules, htype, hp]
  · intro p c hc
    simp [patternRule, hc]
  · intro p m c hm
    cases hmc : m c <;> simp [patternRule, hm, hmc]

/-- Concrete instance of `containsPattern_construction_spec`: a
numeric pattern parameter skips the entry, a string parameter
constructs it, an uncompilable pattern passes everything, a literal
pattern blocks exactly on a match. -/
theorem containsPattern_construction_spec_inst :
    buildCustomRules litCompile
        [{ name := "nr", ruleType := "contains_pattern",
            parameters := [("pattern", .vInt 3)] }] =
      buildCustomRules litCompile []
    ∧ buildCustomRules litCompile
        [{ name := "pr", ruleType := "contains_pattern",
            parameters := [("pattern", .vString "abc")] }] =
      Guardrail.customRule [patternRule litCompile "abc"] ["pr"]
        :: buildCustomRules litCompile []
    ∧ patternRule litCompile "(" "((" = (false, "")
    ∧ ((patternRule litCompile "abc" "xabcy").1 = true ↔
        goContains "xabcy" "abc" = true) := by
  refine ⟨?_, ?_, ?_, ?_⟩
  · exact (containsPattern_construction_spec litCompile
      { name := "nr", ruleType := "contains_pattern",
        parameters := [("pattern", .vInt 3)] } [] rfl).1
      (by intro s h; simp [lookupParam] at h)
  · exact (containsPattern_construction_spec litCompile
      { name := "pr", ruleType := "contains_pattern",
        parameters := [("pattern", .vString "abc")] } [] rfl).2.1 "abc"
      (by rfl)
  · exact (containsPattern_construction_spec litCompile
      { name := "pr", ruleType := "contains_pattern",
        parameters := [("pattern", .vString "abc")] } [] rfl).2.2.1
      "(" "((" (by rfl)
  · exact (containsPattern_construction_spec litCompile
      { name := "pr", ruleType := "contains_pattern",
        parameters := [("pattern", .vString "abc")] } [] rfl).2.2.2
      "abc" (fun c => goContains c "abc") "xabcy" (by rfl)

/-- C6 counterexample: with bound 1 the length rule blocks the
one-character content "é" (UTF-8 byte length 2), though its character
count 1 does not exceed the bound — the rule measures bytes, not
characters. -/
theorem lengthRule_bytes_counterexample :
    (lengthCheckRule 1 "é").1 = true ∧ ¬(("é".length : Int) > 1) :=
  ⟨by decide, by decide⟩

/-- C6 amended: for every positive bound the length rule blocks
exactly when the UTF-8 byte length of the content exceeds the bound
(bytes, which coincide with characters only on ASCII content), and the
detail reports the configured maximum. -/
theorem lengthCheckRule_spec (maxLen : Int) (content : String)
    (_hpos : 0 < maxLen) :
    ((lengthCheckRule maxLen content).1 = true ↔
      (content.utf8ByteSize : Int) > maxLen)
    ∧ ((lengthCheckRule maxLen content).1 = true →
        (lengthCheckRule maxLen content).2 =
          "prompt exceeds maximum length of " ++ toString maxLen ++
            " characters") := by
  by_cases h : (content.utf8ByteSize : Int) > maxLen <;>
    simp [lengthCheckRule, h]

/-- Concrete instance of `lengthCheckRule_spec` at bound 3 and a
four-byte content. -/
theorem lengthCheckRule_spec_inst :
    ((lengthCheckRule 3 "abcd").1 = true ↔
      (("abcd".utf8ByteSize : Nat) : Int) > 3)
    ∧ ((lengthCheckRule 3 "abcd").1 = true →
        (lengthCheckRule 3 "abcd").2 =
          "prompt exceeds maximum length of " ++ toString (3 : Int) ++
            " characters") :=
  lengthCheckRule_spec 3 "abcd" (by decide)

/-- C7: the max_words parameter is accepted as int, int64, float64 or
float32 and normalized to an integer bound by truncation toward zero,
so every numeric representation of the same integer yields the same
bound and hence the same block decision on every content; a missing or
non-numeric parameter fails the construction of that entry alone,
leaving the rest of the set unchanged; a constructed rule blocks
exactly when the whitespace-delimited word count exceeds the bound. -/
theorem wordCount_param_spec (n : Int) (q : ℚ) (s : String) (b : Int)
    (content : String) (compile : String → Option (String → Bool))
    (rc : RuleConfig) (rest : List RuleConfig)
    (htype : rc.ruleType = "word_count")
    (hbad : extractMaxWords (lookupParam rc.parameters "max_words") = none) :
    extractMaxWords (.vInt n) = some n
    ∧ extractMaxWords (.vInt64 n) = some n
    ∧ extractMaxWords (.vFloat64 q) = some (goTrunc q)
    ∧ extractMaxWords (.vFloat32 q) = some (goTrunc q)
    ∧ goTrunc (n : ℚ) = n
    ∧ extractMaxWords (.vString s) = none
    ∧ extractMaxWords .vNil = none
    ∧ buildCustomRules compile (rc :: rest) = buildCustomRules compile rest
    ∧ ((wordCountRule b content).1 = true ↔
        ((goFields content).length : Int) > b) := by
  refine ⟨rfl, rfl, rfl, rfl, ?_, rfl, rfl, ?_, ?_⟩
  · unfold goTrunc
    split <;> simp
  · simp [buildCustomRules, htype, hbad]
  · by_cases h : ((goFields content).length : Int) > b <;>
      simp [wordCountRule, h]

/-- Concrete instance of `wordCount_param_spec`: the representations
5, 5.0, int64(5) and float32(5.0) of the bound 5, a string-typed bound
that skips its entry, and the block decision on a 6-word content. -/
theorem wordCount_param_spec_inst :
    extractMaxWords (.vInt 5) = some 5
    ∧ extractMaxWords (.vInt64 5) = some 5
    ∧ extractMaxWords (.vFloat64 (5 : ℚ)) = some (goTrunc (5 : ℚ))
    ∧ extractMaxWords (.vFloat32 (5 : ℚ)) = some (goTrunc (5 : ℚ))
    ∧ goTrunc ((5 : Int) : ℚ) = 5
    ∧ extractMaxWords (.vString "five") = none
    ∧ extractMaxWords .vNil = none
    ∧ buildCustomRules litCompile
        ({ name := "w", ruleType := "word_count",
            parameters := [("max_words", .vString "five")] } :: []) =
      buildCustomRules litCompile []
    ∧ ((wordCountRule 5 "one two three four five six").1 = true ↔
        ((goFields "one two three four five six").length : Int) > 5) :=
  wordCount_param_spec 5 (5 : ℚ) "five" 5 "one two three four five six"
    litCompile
    { name := "w", ruleType := "word_count",
      parameters := [("max_words", .vString "five")] } [] rfl (by decide)

/-- The banned-words rule reports an error exactly when some
configured word, lower-cased, occurs in the lower-cased content. -/
theorem bannedCheck_isSome (C : String) : ∀ W : List String,
    ((newBannedWordsGuardrail W).check C).isSome = true ↔
      ∃ w ∈ W, goContains (goToLower C) (goToLower w) = true := by
  intro W
  induction W with
  | nil => simp [newBannedWordsGuardrail, Guardrail.check, bannedCheck]
  | cons w ws ih =>
    by_cases hw : goContains (goToLower C) (goToLower w)
    · simp [newBannedWordsGuardrail, Guardrail.check, bannedCheck,
        List.findSome?_cons, hw]
    · simp only [Bool.not_eq_true] at hw
      simp [newBannedWordsGuardrail, Guardrail.check, bannedCheck,
        List.findSome?_cons, hw] at ih ⊢
      try exact ih

/-- The banned-words rule, at the first matching word of the stored
list, names that word. -/
theorem bannedCheck_first (C w : String)
    (hw : goContains (goToLower C) (goToLower w) = true) :
    ∀ pre, (∀ v ∈ pre, goContains (goToLower C) (goToLower v) = false) →
      ∀ suf, (newBannedWordsGuardrail (pre ++ w :: suf)).check C =
        some ("content contains banned word: " ++ goToLower w) := by
  intro pre
  induction pre with
  | nil =>
    intro _ suf
    simp [newBannedWordsGuardrail, Guardrail.check, bannedCheck,
      List.findSome?_cons, hw]
  | cons v rest ih =>
    intro hall suf
    have h1 : goContains (goToLower C) (goToLower v) = false := hall v (by simp)
    have htail := ih (fun u hu => hall u (List.mem_cons_of_mem _ hu)) suf
    simp [newBannedWordsGuardrail, Guardrail.check, bannedCheck,
      List.findSome?_cons, h1] at htail ⊢
    exact htail

/-- C8: the banned-words rule blocks exactly the contents that
case-insensitively contain some configured word as a substring (not a
whole-word match); when it blocks, the word named in the detail is the
first element of the configured list, in its given order, that matches
(stored in lower case); an empty word list never blocks. -/
theorem bannedWords_check_spec (W : List String) (C : String) :
    (((newBannedWordsGuardrail W).check C).isSome = true ↔
      ∃ w ∈ W, goContains (goToLower C) (goToLower w) = true)
    ∧ (∀ pre w suf, W = pre ++ w :: suf →
        (∀ v ∈ pre, goContains (goToLower C) (goToLower v) = false) →
        goContains (goToLower C) (goToLower w) = true →
        (newBannedWordsGuardrail W).check C =
          some ("content contains banned word: " ++ goToLower w))
    ∧ (newBannedWordsGuardrail []).check C = none := by
  refine ⟨bannedCheck_isSome C W, ?_, rfl⟩
  intro pre w suf hW hpre hw
  subst hW
  exact bannedCheck_first C w hw pre hpre suf

/-- Concrete instance of `bannedWords_check_spec`: "Bomb" matches
inside "a BOMBING run" case-insensitively, past a non-matching earlier
word. -/
theorem bannedWords_check_spec_inst :
    (((newBannedWordsGuardrail ["Bomb"]).check "a BOMBING run").isSome = true ↔
      ∃ w ∈ ["Bomb"],
        goContains (goToLower "a BOMBING run") (goToLower w) = true)
    ∧ (newBannedWordsGuardrail ["safe", "Bomb"]).check "a BOMBING run" =
        some ("content contains banned word: " ++ goToLower "Bomb") := by
  refine ⟨(bannedWords_check_spec ["Bomb"] "a BOMBING run").1, ?_⟩
  exact (bannedWords_check_spec ["safe", "Bomb"] "a BOMBING run").2.1
    ["safe"] "Bomb" [] rfl (by decide) (by decide)

/-- Only the empty string occurs inside the empty string. -/
theorem goContains_empty_left (s : String) (hs : s ≠ "") :
    goContains "" s = false := by
  cases hd : s.data with
  | nil =>
    exact absurd (String.ext_iff.mpr (by simp [hd])) hs
  | cons c cs => simp [goContains, goContainsList, goStartsWith, hd]

/-- Lower-casing maps only the empty string to the empty string. -/
theorem goToLower_ne_empty (s : String) (hs : s ≠ "") : goToLower s ≠ "" := by
  intro h
  apply hs
  rw [String.ext_iff] at h ⊢
  simpa [goToLower] using h

/-- A regex component reports an error on a content exactly when some
compiled pattern matches it. -/
theorem regexCheck_isSome (c : String) :
    ∀ ps : List ((String → Bool) × String),
      (regexCheck ps c).isSome = true ↔ ∃ mp ∈ ps, mp.1 c = true := by
  intro ps
  induction ps with
  | nil => simp [regexCheck]
  | cons mp rest ih =>
    by_cases h : mp.1 c
    · simp [regexCheck, List.findSome?_cons, h]
    · simp only [Bool.not_eq_true] at h
      simp [regexCheck, List.findSome?_cons, h] at ih ⊢
      try exact ih

/-- C9 counterexample: the banned-words rule built from the word list
[""] blocks the empty content (an empty substring is contained in
everything), so not every configuration of the built-in rules passes
the empty content. -/
theorem empty_banned_word_blocks_empty :
    (newBannedWordsGuardrail [""]).check "" =
      some "content contains banned word: " := by
  decide

/-- C9 amended: the empty content passes the banned-words rule
whenever no configured word is empty, the length rule for every
positive bound, and the word-count rule for every nonnegative bound;
a pattern-based rule passes the empty content exactly when its
compiled expression does not match the empty string. -/
theorem empty_content_passes_spec (W : List String) (maxLen b : Int)
    (compile : String → Option (String → Bool))
    (hW : ∀ w ∈ W, w ≠ "") (hlen : 0 < maxLen) (hb : 0 ≤ b) :
    (newBannedWordsGuardrail W).check "" = none
    ∧ (lengthCheckRule maxLen "").1 = false
    ∧ (wordCountRule b "").1 = false
    ∧ (∀ p m, compile p = some m → (patternRule compile p "").1 = m "")
    ∧ (∀ ps : List ((String → Bool) × String),
        (regexCheck ps "").isSome = true ↔ ∃ mp ∈ ps, mp.1 "" = true) := by
  refine ⟨?_, ?_, ?_, ?_, regexCheck_isSome ""⟩
  · have hnone : ((newBannedWordsGuardrail W).check "").isSome = false := by
      rw [← Bool.not_eq_true, bannedCheck_isSome]
      rintro ⟨w, hwW, hwc⟩
      rw [show goToLower "" = "" from rfl,
        goContains_empty_left _ (goToLower_ne_empty w (hW w hwW))] at hwc
      exact Bool.false_ne_true hwc
    simpa [Option.isSome_iff_ne_none] using hnone
  · have h0 : (("" : String).utf8ByteSize : Int) = 0 := rfl
    simp only [lengthCheckRule, h0]
    rw [if_neg (by omega)]
  · have h0 : goFields "" = [] := rfl
    simp only [wordCountRule, h0, List.length_nil, Nat.cast_zero]
    rw [if_neg (by omega)]
  · intro p m hm
    cases hmc : m "" <;> simp [patternRule, hm, hmc]

/-- Concrete instance of `empty_content_passes_spec` at the word list
["bomb"], length bound 5 and word bound 3. -/
theorem empty_content_passes_spec_inst :
    (newBannedWordsGuardrail ["bomb"]).check "" = none
    ∧ (lengthCheckRule 5 "").1 = false
    ∧ (wordCountRule 3 "").1 = false
    ∧ (∀ p m, litCompile p = some m → (patternRule litCompile p "").1 = m "")
    ∧ (∀ ps : List ((String → Bool) × String),
        (regexCheck ps "").isSome = true ↔ ∃ mp ∈ ps, mp.1 "" = true) :=
  empty_content_passes_spec ["bomb"] 5 3 litCompile (by decide) (by decide)
    (by decide)

/-- C10: a contains_pattern rule whose pattern does not compile fails
open — every evaluation returns not-blocked and the wrapping guardrail
reports no error on any content; a compiling rule blocks exactly on a
match; and whenever the rule blocks, its detail is the fixed string
"content matches forbidden pattern", which does not mention the
configured pattern text. -/
theorem containsPattern_fail_open_spec
    (compile : String → Option (String → Bool)) (p c nm : String) :
    (compile p = none → patternRule compile p c = (false, "")
      ∧ customRuleCheck [patternRule compile p] [nm] c = none)
    ∧ (∀ m, compile p = some m →
        patternRule compile p c =
          if m c then (true, "content matches forbidden pattern")
          else (false, ""))
    ∧ ((patternRule compile p c).1 = true →
        (patternRule compile p c).2 = "content matches forbidden pattern") := by
  refine ⟨fun hc => ?_, fun m hm => ?_, fun hb => ?_⟩
  · have h1 : patternRule compile p c = (false, "") := by
      simp [patternRule, hc]
    exact ⟨h1, by simp [customRuleCheck_single, h1]⟩
  · simp [patternRule, hm]
  · unfold patternRule at hb ⊢
    cases hc : compile p
    · rw [hc] at hb
      simp at hb
    · rename_i m
      rw [hc] at hb
      cases hmc : m c <;> simp [hmc] at hb ⊢

/-- Concrete instance of `containsPattern_fail_open_spec`: the
uncompilable pattern "(" passes content containing "(", and the
literal pattern "a" blocks "xax" with the fixed detail. -/
theorem containsPattern_fail_open_spec_inst :
    (patternRule litCompile "(" "((" = (false, "")
      ∧ customRuleCheck [patternRule litCompile "("] ["my rule"] "((" = none)
    ∧ (patternRule litCompile "a" "xax").2 =
        "content matches forbidden pattern" := by
  refine ⟨?_, ?_⟩
  · exact (containsPattern_fail_open_spec litCompile "(" "((" "my rule").1
      (by rfl)
  · exact (containsPattern_fail_open_spec litCompile "a" "xax" "my rule").2.2
      (by decide)

/-- C1: for every prompt reaching `handleQuery`, the composite
guardrail runs first; on a block with reason r the block counter goes
up by exactly one, the upstream is never called and the client gets a
rejection carrying r; on a pass the request counter goes up by one and
exactly one upstream call is made; an upstream error bumps the error
counter and yields a fixed generic message without the upstream
detail; an upstream success with text t and n tokens adds n to the
token counter and yields t. -/
theorem handleQuery_orchestration (gs : List Guardrail)
    (llm : Except String (String × Int)) (m : Metrics) (p : String) :
    (∀ r, compositeCheck gs p = some r →
      handleQuery gs llm m p =
        ⟨⟨m.llmRequestsTotal, m.llmErrorsTotal, m.llmTokensTotal,
          m.guardrailBlocksTotal + 1⟩, 0,
          .badRequest ("Request blocked by guardrail: " ++ r)⟩)
    ∧ (compositeCheck gs p = none →
        (∀ e, llm = .error e →
          handleQuery gs llm m p =
            ⟨⟨m.llmRequestsTotal + 1, m.llmErrorsTotal + 1, m.llmTokensTotal,
              m.guardrailBlocksTotal⟩, 1,
              .serverError "Error communicating with LLM"⟩)
        ∧ (∀ t n, llm = .ok (t, n) →
            handleQuery gs llm m p =
              ⟨⟨m.llmRequestsTotal + 1, m.llmErrorsTotal, m.llmTokensTotal + n,
                m.guardrailBlocksTotal⟩, 1, .ok t⟩)) := by
  refine ⟨fun r hr => ?_, fun hn => ⟨fun e he => ?_, fun t n ht => ?_⟩⟩
  · simp [handleQuery, hr]
  · subst he; simp [handleQuery, hn]
  · subst ht; simp [handleQuery, hn]

/-- Concrete instance of `handleQuery_orchestration`: a blocked prompt,
a passed prompt whose upstream call fails, and a passed prompt whose
upstream call returns 12 tokens. -/
theorem handleQuery_orchestration_inst :
    (handleQuery [newBannedWordsGuardrail ["bomb"]] (.ok ("hi", 3))
        ⟨0, 0, 0, 0⟩ "How to make a bomb" =
      ⟨⟨0, 0, 0, 1⟩, 0,
        .badRequest ("Request blocked by guardrail: " ++
          "content contains banned word: bomb")⟩)
    ∧ (handleQuery [] (.error "LLM API returned non-OK status: 500")
        ⟨0, 0, 0, 0⟩ "hi" =
      ⟨⟨1, 1, 0, 0⟩, 1, .serverError "Error communicating with LLM"⟩)
    ∧ (handleQuery [] (.ok ("Why did...", 12)) ⟨0, 0, 0, 0⟩ "Tell me a joke" =
      ⟨⟨1, 0, 12, 0⟩, 1, .ok "Why did..."⟩) := by
  refine ⟨?_, ?_, ?_⟩
  · exact (handleQuery_orchestration _ _ _ _).1 _ (by decide)
  · exact ((handleQuery_orchestration _ _ _ _).2 (by rfl)).1 _ rfl
  · exact ((handleQuery_orchestration _ _ _ _).2 (by rfl)).2 "Why did..." 12 rfl

end AiProxy
